import Mathlib

/-!
# SBM-Harness: shallow embedding and verification

Shallow embedding of the SBM (Safe Bounded Memory) harness core:
the status domain and loop context (`src/include/sbm_types.h`), the
checksum and guard helpers (`src/src/core_guards.c`,
`src/include/sbm_harness.h`), and the checksum-validated snapshot
subsystem (`src/src/sbm_snapshot.c`).

Modelling conventions:
* A pointer-plus-size byte region is modelled as `Option (List Nat)`:
  `none` is the NULL pointer, `some l` is the readable content of the
  region (each element a byte value).  `memcpy(dst, src, n)` becomes
  `List.take`/prefix overwrite on these lists.
* 32-bit machine arithmetic is `Nat` with explicit `% 2 ^ 32` at each
  point where the C type `uint32_t` can wrap (the rotate in
  `sbm_checksum`, the `iteration` counter, the global sequence counter).
* The out-parameter `handle` of `sbm_snapshot_take` is modelled by a
  Boolean `handleNull` (was the out-pointer NULL?) plus the returned
  `Option sbm_snapshot_internal` value.
* `malloc` is assumed to succeed (allocation failure returns
  `SBM_ERR_UNKNOWN` in the C code and is orthogonal to the verified
  properties).  `free` is resource release and is not observable in the
  model; the `active` flag, which the C code clears before freeing, is
  what gates every later access.
* The C struct field `size` always equals the length of the copied
  buffer (`memcpy` of exactly `size` bytes at `take`), so the model
  carries the payload list and uses its length where the C reads
  `snapshot->size`.
* The writer callback of `sbm_snapshot_export` is a function from the
  chunk passed to it (buffer content, whose length is the `size`
  argument) to its `int` return value; `export` additionally returns
  the trace of chunks handed to the writer, in order, so that "the
  writer was never invoked" and "the bytes emitted" are observable.
-/

namespace SBM

/-- Status codes `sbm_status_t` from `src/include/sbm_types.h`. -/
inductive sbm_status where
  | SBM_OK
  | SBM_ERR_NULL
  | SBM_ERR_OOB
  | SBM_ERR_TIMEOUT
  | SBM_ERR_INCONSISTENT
  | SBM_ERR_UNKNOWN
deriving DecidableEq, Repr

open sbm_status

/-- Loop context `sbm_loop_ctx_t` from `src/include/sbm_types.h`;
both fields are `uint32_t`, values kept below `2 ^ 32`. -/
structure sbm_loop_ctx where
  iteration : Nat
  max_iterations : Nat
deriving DecidableEq, Repr

/-- One step of the checksum loop body in `sbm_checksum`
(`src/src/core_guards.c` lines 50-53): rotate the 32-bit accumulator
left by one bit (`(sum << 1) | (sum >> 31)`), then XOR in the byte. -/
def checksumStep (sum b : Nat) : Nat :=
  (((sum <<< 1) % 2 ^ 32) ||| (sum >>> 31)) ^^^ b

/-- The accumulation loop of `sbm_checksum` over the byte list,
starting from 0. -/
def checksumLoop (bytes : List Nat) : Nat :=
  bytes.foldl checksumStep 0

/-- `sbm_checksum(data, size)` from `src/src/core_guards.c`:
returns 0 when `data == NULL || size == 0`, otherwise folds
`checksumStep` over the first `size` bytes of the region. -/
def sbm_checksum (data : Option (List Nat)) (size : Nat) : Nat :=
  match data with
  | none => 0
  | some bytes => if size = 0 then 0 else checksumLoop (bytes.take size)

/-- `sbm_check_bounds(idx, length)` from `src/src/core_guards.c`:
`SBM_ERR_OOB` when `idx >= length`, else `SBM_OK`. -/
def sbm_check_bounds (idx length : Nat) : sbm_status :=
  if idx ≥ length then SBM_ERR_OOB else SBM_OK

/-- The `CHECK_LOOP_LIMIT(ctx)` macro from `src/include/sbm_harness.h`
lines 65-72: increment `ctx.iteration` (a `uint32_t`, hence `% 2 ^ 32`),
then fail with `SBM_ERR_TIMEOUT` when `iteration > max_iterations`.
Returns the updated context and the status the enclosing function would
return (`SBM_OK` meaning execution continues past the macro). -/
def CHECK_LOOP_LIMIT (ctx : sbm_loop_ctx) : sbm_loop_ctx × sbm_status :=
  let it := (ctx.iteration + 1) % 2 ^ 32
  ({ ctx with iteration := it },
   if it > ctx.max_iterations then SBM_ERR_TIMEOUT else SBM_OK)

/-- The context `{0, m}` after `n` executions of `CHECK_LOOP_LIMIT`
(the loop of `tests/fault_injection.c` runs exactly like this). -/
def runGuard (m : Nat) : Nat → sbm_loop_ctx
  | 0 => ⟨0, m⟩
  | n + 1 => (CHECK_LOOP_LIMIT (runGuard m n)).1

/-- The `(n+1)`-st call of `CHECK_LOOP_LIMIT` on a context created as
`{iteration := 0, max_iterations := m}`: updated context and status. -/
def nthGuardCall (m n : Nat) : sbm_loop_ctx × sbm_status :=
  CHECK_LOOP_LIMIT (runGuard m n)

/-- Magic constant `SBM_SNAPSHOT_MAGIC = 0x53424D53` ("SBMS") from
`src/src/sbm_snapshot.c`. -/
def SBM_SNAPSHOT_MAGIC : Nat := 0x53424D53

/-- Internal snapshot record `sbm_snapshot_internal_t` from
`src/src/sbm_snapshot.c`.  `original_state` (the pointer identity of
the origin region) is represented implicitly: `rollback` receives the
current content of that region and returns its new content.  The C
field `size` equals `snapshot_data.length` (see module docstring). -/
structure sbm_snapshot_internal where
  snapshot_data : List Nat
  checksum : Nat
  sequence : Nat
  active : Bool
deriving DecidableEq, Repr

/-- Process-wide globals of `src/src/sbm_snapshot.c`:
`g_snapshot_sequence` (a `uint32_t`) and the `g_snapshot_initialized`
flag. -/
structure SnapshotGlobals where
  g_snapshot_sequence : Nat
  g_snapshot_initFlag : Bool
deriving DecidableEq, Repr

/-- `sbm_snapshot_init` from `src/src/sbm_snapshot.c`: resets the
sequence counter to 0, sets the flag, returns `SBM_OK`. -/
def sbm_snapshot_init (_g : SnapshotGlobals) : SnapshotGlobals × sbm_status :=
  ({ g_snapshot_sequence := 0, g_snapshot_initFlag := true }, SBM_OK)

/-- `sbm_snapshot_take(state, size, handle)` from
`src/src/sbm_snapshot.c` lines 71-115.  Checks, in source order:
`GUARD_PTR(state)`, `GUARD_PTR(handle)` (the `handleNull` flag),
`size == 0`; then lazily runs `sbm_snapshot_init` if needed, copies
`size` bytes of the origin region into a fresh payload, computes the
payload checksum with `sbm_checksum`, assigns the current sequence
number and post-increments the (32-bit) counter.  Returns the updated
globals, the status, and the produced handle (if any). -/
def sbm_snapshot_take (g : SnapshotGlobals) (state : Option (List Nat))
    (size : Nat) (handleNull : Bool) :
    SnapshotGlobals × sbm_status × Option sbm_snapshot_internal :=
  match state with
  | none => (g, SBM_ERR_NULL, none)
  | some origin =>
    if handleNull then (g, SBM_ERR_NULL, none)
    else if size = 0 then (g, SBM_ERR_UNKNOWN, none)
    else
      let g1 := if g.g_snapshot_initFlag then g else (sbm_snapshot_init g).1
      let data := origin.take size
      let snap : sbm_snapshot_internal :=
        { snapshot_data := data
          checksum := sbm_checksum (some data) size
          sequence := g1.g_snapshot_sequence
          active := true }
      ({ g1 with g_snapshot_sequence := (g1.g_snapshot_sequence + 1) % 2 ^ 32 },
       SBM_OK, some snap)

/-- `sbm_snapshot_commit(handle)` from `src/src/sbm_snapshot.c` lines
184-198: `GUARD_PTR(handle)`; `SBM_ERR_INCONSISTENT` if the snapshot is
not active; otherwise clears `active` and releases resources.  The
returned option is the post-state of the handle's record. -/
def sbm_snapshot_commit (handle : Option sbm_snapshot_internal) :
    sbm_status × Option sbm_snapshot_internal :=
  match handle with
  | none => (SBM_ERR_NULL, none)
  | some snapshot =>
    if snapshot.active = false then (SBM_ERR_INCONSISTENT, some snapshot)
    else (SBM_OK, some { snapshot with active := false })

/-- `sbm_snapshot_rollback(handle)` from `src/src/sbm_snapshot.c` lines
213-243.  `origin` is the current content of the guarded region; the
second component of the result is that region's content afterwards.
`GUARD_PTR(handle)`; inactive handle fails `SBM_ERR_INCONSISTENT`;
a checksum mismatch on the payload discards the snapshot without
touching origin and fails `SBM_ERR_INCONSISTENT`; otherwise
`memcpy(original_state, snapshot_data, size)` overwrites the first
`size` bytes of the region and the call returns `SBM_OK`. -/
def sbm_snapshot_rollback (handle : Option sbm_snapshot_internal)
    (origin : List Nat) :
    sbm_status × List Nat × Option sbm_snapshot_internal :=
  match handle with
  | none => (SBM_ERR_NULL, origin, none)
  | some snapshot =>
    if snapshot.active = false then (SBM_ERR_INCONSISTENT, origin, some snapshot)
    else
      let current_checksum :=
        sbm_checksum (some snapshot.snapshot_data) snapshot.snapshot_data.length
      if current_checksum ≠ snapshot.checksum then
        (SBM_ERR_INCONSISTENT, origin, some { snapshot with active := false })
      else
        (SBM_OK,
         snapshot.snapshot_data ++ origin.drop snapshot.snapshot_data.length,
         some { snapshot with active := false })

/-- The four little-endian bytes of a 32-bit value, as passed to the
writer for each 4-byte header field of the export format (host byte
order, little-endian host assumed). -/
def u32le (x : Nat) : List Nat :=
  [x % 2 ^ 8, x / 2 ^ 8 % 2 ^ 8, x / 2 ^ 16 % 2 ^ 8, x / 2 ^ 24 % 2 ^ 8]

/-- `sbm_snapshot_export(handle, writer, context)` from
`src/src/sbm_snapshot.c` lines 128-168.  `GUARD_PTR(handle)`,
`GUARD_PTR(writer)`; inactive handle or payload-checksum mismatch fail
`SBM_ERR_INCONSISTENT` before any write; then the five writes
`magic | sequence | checksum | size | data`, each aborted with
`SBM_ERR_UNKNOWN` when the writer's return value is `< 0`.  The second
component is the trace of chunks handed to the writer, in order.  The
snapshot itself is not modified by export. -/
def sbm_snapshot_export (handle : Option sbm_snapshot_internal)
    (writer : Option (List Nat → Int)) :
    sbm_status × List (List Nat) :=
  match handle with
  | none => (SBM_ERR_NULL, [])
  | some snapshot =>
    match writer with
    | none => (SBM_ERR_NULL, [])
    | some w =>
      if snapshot.active = false then (SBM_ERR_INCONSISTENT, [])
      else
        let current_checksum :=
          sbm_checksum (some snapshot.snapshot_data) snapshot.snapshot_data.length
        if current_checksum ≠ snapshot.checksum then (SBM_ERR_INCONSISTENT, [])
        else
          let magic := u32le SBM_SNAPSHOT_MAGIC
          let seqF := u32le snapshot.sequence
          let ckF := u32le snapshot.checksum
          let szF := u32le snapshot.snapshot_data.length
          if w magic < 0 then (SBM_ERR_UNKNOWN, [magic])
          else if w seqF < 0 then (SBM_ERR_UNKNOWN, [magic, seqF])
          else if w ckF < 0 then (SBM_ERR_UNKNOWN, [magic, seqF, ckF])
          else if w szF < 0 then (SBM_ERR_UNKNOWN, [magic, seqF, ckF, szF])
          else if w snapshot.snapshot_data < 0 then
            (SBM_ERR_UNKNOWN, [magic, seqF, ckF, szF, snapshot.snapshot_data])
          else (SBM_OK, [magic, seqF, ckF, szF, snapshot.snapshot_data])

/-- Globals after `sbm_snapshot_init` on a fresh process followed by
`n` calls of `sbm_snapshot_take`, the `k`-th call on origin region
`origins k` with its full length as `size`. -/
def globalsAfterTakes (origins : Nat → List Nat) : Nat → SnapshotGlobals
  | 0 => (sbm_snapshot_init ⟨0, false⟩).1
  | n + 1 =>
    (sbm_snapshot_take (globalsAfterTakes origins n) (some (origins n))
      (origins n).length false).1

/-- The `(n+1)`-st `sbm_snapshot_take` call in the run described by
`globalsAfterTakes`: its full result. -/
def nthTake (origins : Nat → List Nat) (n : Nat) :
    SnapshotGlobals × sbm_status × Option sbm_snapshot_internal :=
  sbm_snapshot_take (globalsAfterTakes origins n) (some (origins n))
    (origins n).length false

end SBM

namespace SBM

open sbm_status

/-! ## Helper lemmas -/

/-- After `n` calls of `CHECK_LOOP_LIMIT` on a context created as
`{0, m}`, the iteration counter holds `n % 2 ^ 32` and the limit is
unchanged. -/
theorem runGuard_spec (m : Nat) :
    ∀ n, (runGuard m n).iteration = n % 2 ^ 32 ∧
      (runGuard m n).max_iterations = m := by
  intro n
  induction n with
  | zero => simp [runGuard]
  | succ k ih =>
    refine ⟨?_, ?_⟩ <;> simp [runGuard, CHECK_LOOP_LIMIT, ih.1, ih.2]

/-- Status of the `(n+1)`-st `CHECK_LOOP_LIMIT` call on a context
created as `{0, m}`: `SBM_ERR_TIMEOUT` exactly when the wrapped counter
value `(n + 1) % 2 ^ 32` exceeds `m`. -/
theorem nthGuardCall_status (m n : Nat) :
    (nthGuardCall m n).2
      = if m < (n + 1) % 2 ^ 32 then SBM_ERR_TIMEOUT else SBM_OK := by
  have h1 := (runGuard_spec m n).1
  have h2 := (runGuard_spec m n).2
  simp only [nthGuardCall, CHECK_LOOP_LIMIT, h1, h2]
  have : (n % 2 ^ 32 + 1) % 2 ^ 32 = (n + 1) % 2 ^ 32 := by
    conv_rhs => rw [Nat.add_mod]
    norm_num
  rw [this]

/-- After `sbm_snapshot_init` and `n` successful `sbm_snapshot_take`
calls, the global sequence counter holds `n % 2 ^ 32` and the
subsystem stays marked initialized. -/
theorem globalsAfterTakes_spec (origins : Nat → List Nat)
    (h : ∀ k, origins k ≠ []) :
    ∀ n, globalsAfterTakes origins n = ⟨n % 2 ^ 32, true⟩ := by
  intro n
  induction n with
  | zero => simp [globalsAfterTakes, sbm_snapshot_init]
  | succ k ih =>
    have hl : (origins k).length ≠ 0 := by
      simpa [List.length_eq_zero] using h k
    simp [globalsAfterTakes, sbm_snapshot_take, ih, hl]

/-- Full result of the `(n+1)`-st `sbm_snapshot_take` in a run of
takes on non-empty origin regions: it succeeds and assigns sequence
number `n % 2 ^ 32`. -/
theorem nthTake_spec (origins : Nat → List Nat) (h : ∀ k, origins k ≠ [])
    (n : Nat) :
    nthTake origins n
      = (⟨(n + 1) % 2 ^ 32, true⟩, SBM_OK,
         some ⟨origins n, sbm_checksum (some (origins n)) (origins n).length,
               n % 2 ^ 32, true⟩) := by
  have hl : (origins n).length ≠ 0 := by
    simpa [List.length_eq_zero] using h n
  rw [nthTake, globalsAfterTakes_spec origins h n]
  simp [sbm_snapshot_take, hl, List.take_length]

/-- The map `x ↦ (x <<< 1) ^^^ x` is injective on `Nat` (it is linear
over GF(2) with trivial kernel, shown bit by bit). -/
theorem shiftXor_inj {x y : Nat}
    (h : (x <<< 1) ^^^ x = (y <<< 1) ^^^ y) : x = y := by
  apply Nat.eq_of_testBit_eq
  intro i
  induction i with
  | zero =>
    have h0 := congrArg (fun z => Nat.testBit z 0) h
    simp only [Nat.testBit_xor, Nat.testBit_shiftLeft] at h0
    simpa using h0
  | succ n ih =>
    have h1 := congrArg (fun z => Nat.testBit z (n + 1)) h
    simp only [Nat.testBit_xor, Nat.testBit_shiftLeft, ge_iff_le,
      Nat.le_add_left, decide_True, Bool.true_and, Nat.add_sub_cancel] at h1
    rw [ih] at h1
    rcases hb : Nat.testBit y n <;> rw [hb] at h1 <;>
      simpa using h1

/-- The digest of a two-byte sequence `[a, b]` evaluates to
`(a <<< 1) ^^^ b` when `a` is a byte (no 32-bit wrap occurs). -/
theorem two_byte_digest (a b : Nat) (ha : a < 256) :
    sbm_checksum (some [a, b]) 2 = (a <<< 1) ^^^ b := by
  have h1 : a <<< 1 < 4294967296 := by
    rw [Nat.shiftLeft_eq, pow_one]
    omega
  have h2 : a >>> 31 = 0 := by
    rw [Nat.shiftRight_eq_div_pow]
    exact Nat.div_eq_of_lt (by omega)
  simp [sbm_checksum, checksumLoop, checksumStep, List.take, List.foldl,
    Nat.mod_eq_of_lt h1, h2]

/-! ## Claim theorems -/

/-- C9: `sbm_snapshot_take` fails with `SBM_ERR_NULL` whenever the
origin pointer is NULL, for every size and handle argument; and fails
with `SBM_ERR_UNKNOWN` whenever `size = 0`, for every non-null origin
(with a non-null handle out-pointer).  In both cases the globals are
untouched and no handle is produced. -/
theorem take_null_or_zero_size_fails :
    ∀ (g : SnapshotGlobals) (origin : List Nat) (size : Nat) (hN : Bool),
      sbm_snapshot_take g none size hN = (g, SBM_ERR_NULL, none) ∧
      sbm_snapshot_take g (some origin) 0 false = (g, SBM_ERR_UNKNOWN, none) := by
  intro g origin size hN
  constructor <;> simp [sbm_snapshot_take]

/-- C1: for every non-empty origin region: after a successful
`sbm_snapshot_take` of the region, arbitrary mutation of the origin
bytes (same region size), `sbm_snapshot_rollback` on the still-active
uncorrupted handle returns `SBM_OK` and the origin region holds
exactly, byte for byte, the value it had at the time of the take. -/
theorem take_mutate_rollback_restores_origin :
    ∀ (g : SnapshotGlobals) (origin mutated : List Nat),
      origin ≠ [] → mutated.length = origin.length →
      (sbm_snapshot_take g (some origin) origin.length false).2.1 = SBM_OK ∧
      (sbm_snapshot_rollback
          (sbm_snapshot_take g (some origin) origin.length false).2.2 mutated).1
        = SBM_OK ∧
      (sbm_snapshot_rollback
          (sbm_snapshot_take g (some origin) origin.length false).2.2 mutated).2.1
        = origin := by
  intro g origin mutated h hlen
  have hl : origin.length ≠ 0 := by simpa [List.length_eq_zero] using h
  refine ⟨?_, ?_, ?_⟩ <;>
    simp [sbm_snapshot_take, sbm_snapshot_rollback, hl, List.take_length,
      List.drop_eq_nil_of_le (le_of_eq hlen)]

/-- C1 witness: concrete instance with origin `[1, 2]` mutated to
`[9, 9]`. -/
theorem take_mutate_rollback_restores_origin_witness :
    (sbm_snapshot_take ⟨0, true⟩ (some [1, 2]) ([1, 2] : List Nat).length
        false).2.1 = SBM_OK ∧
    (sbm_snapshot_rollback
        (sbm_snapshot_take ⟨0, true⟩ (some [1, 2]) ([1, 2] : List Nat).length
          false).2.2 [9, 9]).1 = SBM_OK ∧
    (sbm_snapshot_rollback
        (sbm_snapshot_take ⟨0, true⟩ (some [1, 2]) ([1, 2] : List Nat).length
          false).2.2 [9, 9]).2.1 = [1, 2] :=
  take_mutate_rollback_restores_origin ⟨0, true⟩ [1, 2] [9, 9] (by decide)
    (by decide)

/-- C2: for every active snapshot whose payload digest no longer
matches the stored checksum, `sbm_snapshot_rollback` returns
`SBM_ERR_INCONSISTENT`, leaves every byte of the origin region
unmodified, and makes the handle terminal: the deactivated handle fails
every further rollback, commit and export with `SBM_ERR_INCONSISTENT`. -/
theorem rollback_corrupted_fails_safe :
    ∀ (s : sbm_snapshot_internal) (origin other : List Nat) (w : List Nat → Int),
      s.active = true →
      sbm_checksum (some s.snapshot_data) s.snapshot_data.length ≠ s.checksum →
      sbm_snapshot_rollback (some s) origin
        = (SBM_ERR_INCONSISTENT, origin, some { s with active := false }) ∧
      (sbm_snapshot_rollback (some { s with active := false }) other).1
        = SBM_ERR_INCONSISTENT ∧
      (sbm_snapshot_commit (some { s with active := false })).1
        = SBM_ERR_INCONSISTENT ∧
      (sbm_snapshot_export (some { s with active := false }) (some w)).1
        = SBM_ERR_INCONSISTENT := by
  intro s origin other w ha hc
  refine ⟨?_, ?_, ?_, ?_⟩ <;>
    simp [sbm_snapshot_rollback, sbm_snapshot_commit, sbm_snapshot_export, ha, hc]

/-- C2 witness: a snapshot with payload `[1]` (digest 1) and stored
checksum 0. -/
theorem rollback_corrupted_fails_safe_witness :
    sbm_snapshot_rollback (some ⟨[1], 0, 0, true⟩) [5]
      = (SBM_ERR_INCONSISTENT, [5],
         some ⟨[1], 0, 0, false⟩) ∧
    (sbm_snapshot_rollback (some ⟨[1], 0, 0, false⟩) [6]).1
      = SBM_ERR_INCONSISTENT ∧
    (sbm_snapshot_commit (some ⟨[1], 0, 0, false⟩)).1 = SBM_ERR_INCONSISTENT ∧
    (sbm_snapshot_export (some ⟨[1], 0, 0, false⟩) (some fun _ => 0)).1
      = SBM_ERR_INCONSISTENT :=
  rollback_corrupted_fails_safe ⟨[1], 0, 0, true⟩ [5] [6] (fun _ => 0) rfl
    (by decide)

/-- C3: on every handle where `sbm_snapshot_commit` or
`sbm_snapshot_rollback` has returned `SBM_OK`, a second commit or
rollback returns `SBM_ERR_INCONSISTENT` and changes nothing: the handle
record and the origin region are returned untouched. -/
theorem second_commit_or_rollback_inconsistent :
    ∀ (h : Option sbm_snapshot_internal) (o o' : List Nat),
      ((sbm_snapshot_commit h).1 = SBM_OK →
        sbm_snapshot_commit (sbm_snapshot_commit h).2
            = (SBM_ERR_INCONSISTENT, (sbm_snapshot_commit h).2) ∧
        sbm_snapshot_rollback (sbm_snapshot_commit h).2 o'
            = (SBM_ERR_INCONSISTENT, o', (sbm_snapshot_commit h).2)) ∧
      ((sbm_snapshot_rollback h o).1 = SBM_OK →
        sbm_snapshot_commit (sbm_snapshot_rollback h o).2.2
            = (SBM_ERR_INCONSISTENT, (sbm_snapshot_rollback h o).2.2) ∧
        sbm_snapshot_rollback (sbm_snapshot_rollback h o).2.2 o'
            = (SBM_ERR_INCONSISTENT, o', (sbm_snapshot_rollback h o).2.2)) := by
  intro h o o'
  match h with
  | none => simp [sbm_snapshot_commit, sbm_snapshot_rollback]
  | some s =>
    by_cases ha : s.active = false
    · simp [sbm_snapshot_commit, sbm_snapshot_rollback, ha]
    · by_cases hc : sbm_checksum (some s.snapshot_data) s.snapshot_data.length
          = s.checksum
      · simp [sbm_snapshot_commit, sbm_snapshot_rollback, ha, hc]
      · simp [sbm_snapshot_commit, sbm_snapshot_rollback, ha, hc]

/-- C3 witness: a valid active snapshot of `[1]`; after commit-Ok and
after rollback-Ok, the second commit and rollback each fail
`SBM_ERR_INCONSISTENT` without state change. -/
theorem second_commit_or_rollback_inconsistent_witness :
    (sbm_snapshot_commit (sbm_snapshot_commit (some ⟨[1], 1, 0, true⟩)).2
        = (SBM_ERR_INCONSISTENT,
           (sbm_snapshot_commit (some ⟨[1], 1, 0, true⟩)).2) ∧
      sbm_snapshot_rollback (sbm_snapshot_commit (some ⟨[1], 1, 0, true⟩)).2 [6]
        = (SBM_ERR_INCONSISTENT, [6],
           (sbm_snapshot_commit (some ⟨[1], 1, 0, true⟩)).2)) ∧
    (sbm_snapshot_commit
          (sbm_snapshot_rollback (some ⟨[1], 1, 0, true⟩) [5]).2.2
        = (SBM_ERR_INCONSISTENT,
           (sbm_snapshot_rollback (some ⟨[1], 1, 0, true⟩) [5]).2.2) ∧
      sbm_snapshot_rollback
          (sbm_snapshot_rollback (some ⟨[1], 1, 0, true⟩) [5]).2.2 [6]
        = (SBM_ERR_INCONSISTENT, [6],
           (sbm_snapshot_rollback (some ⟨[1], 1, 0, true⟩) [5]).2.2)) :=
  ⟨(second_commit_or_rollback_inconsistent (some ⟨[1], 1, 0, true⟩) [5] [6]).1
      (by decide),
   (second_commit_or_rollback_inconsistent (some ⟨[1], 1, 0, true⟩) [5] [6]).2
      (by decide)⟩

/-- C4 counterexample: the claim "any non-full write, whether short or
negative, makes export return Unknown" is false as stated.  A writer
that returns 0 for every call reports a short write for each of the
five chunks (0 is smaller than the 4 bytes requested for the header
fields), yet `sbm_snapshot_export` returns `SBM_OK`: the code only
checks for negative return values. -/
theorem export_short_write_returns_ok_cex :
    (sbm_snapshot_export (some ⟨[7], 7, 0, true⟩) (some fun _ => 0)).1 = SBM_OK ∧
    (0 : Int) < 4 := by
  constructor
  · rfl
  · decide

/-- C4 (amended): on an active uncorrupted snapshot, if the writer
returns a negative value (the error indicator) for any of the five
writes, `sbm_snapshot_export` returns `SBM_ERR_UNKNOWN`; a short but
non-negative write count is not detected. -/
theorem export_negative_write_unknown :
    ∀ (s : sbm_snapshot_internal) (w : List Nat → Int),
      s.active = true →
      sbm_checksum (some s.snapshot_data) s.snapshot_data.length = s.checksum →
      (w (u32le SBM_SNAPSHOT_MAGIC) < 0 ∨ w (u32le s.sequence) < 0 ∨
       w (u32le s.checksum) < 0 ∨ w (u32le s.snapshot_data.length) < 0 ∨
       w s.snapshot_data < 0) →
      (sbm_snapshot_export (some s) (some w)).1 = SBM_ERR_UNKNOWN := by
  intro s w ha hc hw
  by_cases h1 : w (u32le SBM_SNAPSHOT_MAGIC) < 0
  · simp [sbm_snapshot_export, ha, hc, h1]
  · by_cases h2 : w (u32le s.sequence) < 0
    · simp [sbm_snapshot_export, ha, hc, h1, h2]
    · by_cases h3 : w (u32le s.checksum) < 0
      · simp [sbm_snapshot_export, ha, hc, h1, h2, h3]
      · by_cases h4 : w (u32le s.snapshot_data.length) < 0
        · simp [sbm_snapshot_export, ha, hc, h1, h2, h3, h4]
        · by_cases h5 : w s.snapshot_data < 0
          · simp [sbm_snapshot_export, ha, hc, h1, h2, h3, h4, h5]
          · rcases hw with h | h | h | h | h <;> contradiction

/-- C4 witness: a writer that always returns -1 makes export fail with
`SBM_ERR_UNKNOWN` on a valid snapshot of `[7]`. -/
theorem export_negative_write_unknown_witness :
    (sbm_snapshot_export (some ⟨[7], 7, 0, true⟩)
        (some fun _ => (-1 : Int))).1 = SBM_ERR_UNKNOWN :=
  export_negative_write_unknown ⟨[7], 7, 0, true⟩ (fun _ => (-1 : Int)) rfl
    (by decide) (Or.inl (by decide))

/-- C5: for every snapshot freshly taken from a non-empty origin and
every writer that accepts all writes, `sbm_snapshot_export` returns
`SBM_OK` and hands the writer, in this exact order, the 4-byte magic
constant, the 4-byte sequence number the take assigned, the 4-byte
checksum (the digest of the payload), the 4-byte payload size, and the
payload bytes captured at take; the snapshot stays active, so a
subsequent `sbm_snapshot_commit` succeeds (and since export leaves the
record untouched, a repeated export gives the same result). -/
theorem export_emits_frame_then_commit_ok :
    ∀ (g : SnapshotGlobals) (origin : List Nat) (w : List Nat → Int),
      origin ≠ [] → (∀ c, 0 ≤ w c) →
      ∃ snap, (sbm_snapshot_take g (some origin) origin.length false).2
          = (SBM_OK, some snap) ∧
        snap.active = true ∧ snap.snapshot_data = origin ∧
        sbm_snapshot_export (some snap) (some w)
          = (SBM_OK,
             [u32le SBM_SNAPSHOT_MAGIC, u32le snap.sequence,
              u32le (sbm_checksum (some origin) origin.length),
              u32le origin.length, origin]) ∧
        (sbm_snapshot_commit (some snap)).1 = SBM_OK := by
  intro g origin w h hw
  have hl : origin.length ≠ 0 := by simpa [List.length_eq_zero] using h
  refine ⟨⟨origin, sbm_checksum (some origin) origin.length,
      (if g.g_snapshot_initFlag then g else (sbm_snapshot_init g).1).g_snapshot_sequence,
      true⟩, ?_, rfl, rfl, ?_, ?_⟩
  · simp [sbm_snapshot_take, hl, List.take_length]
  · simp [sbm_snapshot_export, not_lt.mpr (hw _)]
  · simp [sbm_snapshot_commit]

/-- C5 witness: origin `[42]` and the writer that reports every chunk
fully written. -/
theorem export_emits_frame_then_commit_ok_witness :
    ∃ snap,
      (sbm_snapshot_take ⟨0, true⟩ (some [42]) ([42] : List Nat).length
          false).2 = (SBM_OK, some snap) ∧
      snap.active = true ∧ snap.snapshot_data = [42] ∧
      sbm_snapshot_export (some snap) (some fun c => (c.length : Int))
        = (SBM_OK,
           [u32le SBM_SNAPSHOT_MAGIC, u32le snap.sequence,
            u32le (sbm_checksum (some [42]) ([42] : List Nat).length),
            u32le ([42] : List Nat).length, [42]]) ∧
      (sbm_snapshot_commit (some snap)).1 = SBM_OK :=
  export_emits_frame_then_commit_ok ⟨0, true⟩ [42] (fun c => (c.length : Int))
    (by decide) (fun c => Int.natCast_nonneg c.length)

/-- C6 counterexample: the claim "the context being exhausted, the
guard returns IterationLimitExceeded on every further call" is false as
stated, because the iteration counter is a 32-bit integer.  With
`max_iterations = 100`, call 101 does fire (first conjunct), but call
number `2 ^ 32` (index `2 ^ 32 - 1`), far past the limit, wraps the
counter to 0 and returns `SBM_OK` again. -/
theorem loop_guard_wraps_cex :
    (nthGuardCall 100 100).2 = SBM_ERR_TIMEOUT ∧
    (nthGuardCall 100 (2 ^ 32 - 1)).2 = SBM_OK := by
  constructor
  · rw [nthGuardCall_status]
    norm_num
  · rw [nthGuardCall_status]
    norm_num

/-- C6 (amended): for every context created with `iteration = 0` and
`max_iterations = m` (`m` a 32-bit value), call `k` of the loop guard
returns `SBM_OK` for `1 ≤ k ≤ m` and `SBM_ERR_TIMEOUT` for every
`m < k < 2 ^ 32` — in particular the guard fires first on call `m + 1`,
the call that pushes `iteration` from `m` to `m + 1`, and keeps firing
until the 32-bit counter wraps after call `2 ^ 32 - 1`. -/
theorem loop_guard_bounded_behavior :
    ∀ (m k : Nat), m < 2 ^ 32 →
      (1 ≤ k → k ≤ m → (nthGuardCall m (k - 1)).2 = SBM_OK) ∧
      (m < k → k < 2 ^ 32 → (nthGuardCall m (k - 1)).2 = SBM_ERR_TIMEOUT) := by
  intro m k hm
  constructor
  · intro h1 hk
    rw [nthGuardCall_status, Nat.sub_add_cancel h1,
      Nat.mod_eq_of_lt (lt_of_le_of_lt hk hm)]
    exact if_neg (not_lt.mpr hk)
  · intro hk hk2
    have h1 : 0 < k := Nat.lt_of_le_of_lt (Nat.zero_le m) hk
    rw [nthGuardCall_status, Nat.sub_add_cancel h1, Nat.mod_eq_of_lt hk2]
    exact if_pos hk

/-- C6 witness: with `max_iterations = 100`, call 100 returns `SBM_OK`
and call 101 returns `SBM_ERR_TIMEOUT`. -/
theorem loop_guard_bounded_behavior_witness :
    (nthGuardCall 100 (100 - 1)).2 = SBM_OK ∧
    (nthGuardCall 100 (101 - 1)).2 = SBM_ERR_TIMEOUT :=
  ⟨(loop_guard_bounded_behavior 100 100 (by norm_num)).1 (by norm_num)
      (by norm_num),
   (loop_guard_bounded_behavior 100 101 (by norm_num)).2 (by norm_num)
      (by norm_num)⟩

/-- C7 counterexample: the claim "every permutation of a byte sequence
yields a different digest" is false.  `[1, 4, 2]` and `[2, 1, 4]` are
distinct permutations of the same bytes and both digest to 14. -/
theorem checksum_perm_collision_cex :
    ([1, 4, 2] : List Nat).Perm [2, 1, 4] ∧
    ([1, 4, 2] : List Nat) ≠ [2, 1, 4] ∧
    sbm_checksum (some [1, 4, 2]) 3 = sbm_checksum (some [2, 1, 4]) 3 := by
  refine ⟨by decide, by decide, by decide⟩

/-- C7 (amended): the checksum is order-sensitive in the sense that
reordering the same bytes can change the digest — swapping the two
elements of any two-byte sequence with distinct bytes always yields a
different digest — but not every permutation yields a different digest. -/
theorem checksum_two_byte_swap_sensitive :
    ∀ (a b : Nat), a < 256 → b < 256 → a ≠ b →
      ([a, b] : List Nat).Perm [b, a] ∧
      sbm_checksum (some [a, b]) 2 ≠ sbm_checksum (some [b, a]) 2 := by
  intro a b ha hb hab
  refine ⟨List.Perm.swap b a [], ?_⟩
  rw [two_byte_digest a b ha, two_byte_digest b a hb]
  intro h
  apply hab
  apply shiftXor_inj
  have h2 : ((a <<< 1) ^^^ b) ^^^ (b ^^^ a) = ((b <<< 1) ^^^ a) ^^^ (b ^^^ a) := by
    rw [h]
  rw [Nat.xor_assoc, Nat.xor_cancel_left, Nat.xor_comm b a, Nat.xor_assoc,
    Nat.xor_cancel_left] at h2
  exact h2

/-- C7 witness: the digests of `[1, 2]` and `[2, 1]` differ. -/
theorem checksum_two_byte_swap_sensitive_witness :
    ([1, 2] : List Nat).Perm [2, 1] ∧
    sbm_checksum (some [1, 2]) 2 ≠ sbm_checksum (some [2, 1]) 2 :=
  checksum_two_byte_swap_sensitive 1 2 (by norm_num) (by norm_num) (by norm_num)

/-- C8 counterexample: the claim "sequence numbers of successive
successful takes are strictly increasing within one process lifetime"
is false as stated, because the counter is a 32-bit integer.  In a run
of successful takes after initialization, take number `2 ^ 32 - 1`
(0-indexed) is assigned sequence `2 ^ 32 - 1` and the immediately
following take is assigned sequence 0 — both succeed, but the later
sequence is smaller. -/
theorem sequence_wraps_cex :
    (nthTake (fun _ => [0]) (2 ^ 32 - 1)).2.1 = SBM_OK ∧
    (nthTake (fun _ => [0]) (2 ^ 32)).2.1 = SBM_OK ∧
    Option.map sbm_snapshot_internal.sequence
        (nthTake (fun _ => [0]) (2 ^ 32 - 1)).2.2 = some (2 ^ 32 - 1) ∧
    Option.map sbm_snapshot_internal.sequence
        (nthTake (fun _ => [0]) (2 ^ 32)).2.2 = some 0 := by
  have h : ∀ k : Nat, (fun _ : Nat => ([0] : List Nat)) k ≠ [] := fun _ =>
    List.cons_ne_nil 0 []
  rw [nthTake_spec _ h, nthTake_spec _ h]
  refine ⟨rfl, rfl, ?_, ?_⟩ <;> simp [Option.map]

/-- C8 (amended): in a run of successful `sbm_snapshot_take` calls
after subsystem initialization, sequence numbers are strictly
increasing as long as the 32-bit counter has not wrapped: for takes
`i < j` with `j < 2 ^ 32`, both succeed and take `i`'s sequence number
is strictly less than take `j`'s. -/
theorem sequence_strictly_increasing_before_wrap :
    ∀ (origins : Nat → List Nat), (∀ k, origins k ≠ []) →
      ∀ i j, i < j → j < 2 ^ 32 →
        (nthTake origins i).2.1 = SBM_OK ∧ (nthTake origins j).2.1 = SBM_OK ∧
        ∃ si sj, (nthTake origins i).2.2 = some si ∧
          (nthTake origins j).2.2 = some sj ∧ si.sequence < sj.sequence := by
  intro origins h i j hij hj
  rw [nthTake_spec origins h i, nthTake_spec origins h j]
  refine ⟨rfl, rfl, _, _, rfl, rfl, ?_⟩
  simp only
  rw [Nat.mod_eq_of_lt (lt_trans hij hj), Nat.mod_eq_of_lt hj]
  exact hij

/-- C8 witness: the first two takes of a run (origin `[3]`) succeed
with strictly increasing sequence numbers. -/
theorem sequence_strictly_increasing_before_wrap_witness :
    (nthTake (fun _ => [3]) 0).2.1 = SBM_OK ∧
    (nthTake (fun _ => [3]) 1).2.1 = SBM_OK ∧
    ∃ si sj, (nthTake (fun _ => [3]) 0).2.2 = some si ∧
      (nthTake (fun _ => [3]) 1).2.2 = some sj ∧ si.sequence < sj.sequence :=
  sequence_strictly_increasing_before_wrap (fun _ => [3])
    (fun _ => List.cons_ne_nil 3 []) 0 1 (by norm_num) (by norm_num)

/-- C10: whenever `sbm_snapshot_export` fails because the handle or the
writer is NULL (`SBM_ERR_NULL`), the handle is not active, or the
freshly computed payload digest differs from the stored checksum
(`SBM_ERR_INCONSISTENT`), the writer is never invoked: the trace of
chunks handed to the writer is empty, so a failed export of these kinds
produces no partial output. -/
theorem export_failure_no_write :
    ∀ (s : sbm_snapshot_internal) (wo : Option (List Nat → Int))
      (w : List Nat → Int),
      sbm_snapshot_export none wo = (SBM_ERR_NULL, []) ∧
      sbm_snapshot_export (some s) none = (SBM_ERR_NULL, []) ∧
      (s.active = false →
        sbm_snapshot_export (some s) (some w) = (SBM_ERR_INCONSISTENT, [])) ∧
      (sbm_checksum (some s.snapshot_data) s.snapshot_data.length ≠ s.checksum →
        sbm_snapshot_export (some s) (some w) = (SBM_ERR_INCONSISTENT, [])) := by
  intro s wo w
  refine ⟨?_, ?_, ?_, ?_⟩
  · simp [sbm_snapshot_export]
  · simp [sbm_snapshot_export]
  · intro ha; simp [sbm_snapshot_export, ha]
  · intro hc
    by_cases ha : s.active = false
    · simp [sbm_snapshot_export, ha]
    · simp [sbm_snapshot_export, ha, hc]

/-- C10 witness: NULL handle, NULL writer, an inactive snapshot, and a
corrupted snapshot (payload `[1]`, stored checksum 0) each fail with an
empty write trace. -/
theorem export_failure_no_write_witness :
    sbm_snapshot_export none (some fun _ => 0) = (SBM_ERR_NULL, []) ∧
    sbm_snapshot_export (some ⟨[1], 1, 0, false⟩) none = (SBM_ERR_NULL, []) ∧
    sbm_snapshot_export (some ⟨[1], 1, 0, false⟩) (some fun _ => 0)
      = (SBM_ERR_INCONSISTENT, []) ∧
    sbm_snapshot_export (some ⟨[1], 0, 0, true⟩) (some fun _ => 0)
      = (SBM_ERR_INCONSISTENT, []) :=
  ⟨(export_failure_no_write ⟨[1], 1, 0, false⟩ (some fun _ => 0)
      (fun _ => 0)).1,
   (export_failure_no_write ⟨[1], 1, 0, false⟩ (some fun _ => 0)
      (fun _ => 0)).2.1,
   (export_failure_no_write ⟨[1], 1, 0, false⟩ (some fun _ => 0)
      (fun _ => 0)).2.2.1 rfl,
   (export_failure_no_write ⟨[1], 0, 0, true⟩ (some fun _ => 0)
      (fun _ => 0)).2.2.2 (by decide)⟩

end SBM
